import Mathlib

/-!
Shallow embedding of the Al Cabone sales bot (`bot.js` and its near-duplicate
drafts) and verification of the stated properties of its Sale Ingestion &
Classification Pipeline.

The repository ships three drafts of the same pipeline:
* draft V1: the first copy inside `bot.js` (canvas-based images);
* draft V2: the second copy inside `bot.js` (text + image format,
  server-side `occurred_after` filtering);
* draft P0: the copy in `src/unnamed/part_000` (client-side timestamp
  filtering, merging checkpoint writes).
Where the drafts agree a single definition carries the shared name; where
they differ, the definitions carry a `V1`/`V2`/`P0` suffix.
-/

namespace AlCabone

/-! ## Tier classification (`getHolderTier`, `getTierRank`) -/

/-- `getHolderTier` from `bot.js` (identical in every draft): maps an NFT
holding count to a tier name by descending threshold tests.  Counts are
JS numbers that may be zero or negative, so we model them as `Int`. -/
def getHolderTier (nftCount : Int) : String :=
  if nftCount ≥ 100 then "commission"
  else if nftCount ≥ 25 then "godfather"
  else if nftCount ≥ 20 then "underboss"
  else if nftCount ≥ 15 then "consigliere"
  else if nftCount ≥ 10 then "caporegime"
  else if nftCount ≥ 5 then "soldier"
  else "associate"

/-- `getTierRank` from `bot.js`: the `ranks` lookup table; any string
outside the table (e.g. the `'unknown'` seller tier) defaults to 1
(`ranks[tier] || 1`). -/
def getTierRank (tier : String) : Nat :=
  if tier = "associate" then 1
  else if tier = "soldier" then 2
  else if tier = "caporegime" then 3
  else if tier = "consigliere" then 4
  else if tier = "underboss" then 5
  else if tier = "godfather" then 6
  else if tier = "commission" then 7
  else 1

/-- The ordered tier table of the specification (§3): the seven tier names
in rank order 1..7. -/
def tierList : List String :=
  ["associate", "soldier", "caporegime", "consigliere", "underboss",
   "godfather", "commission"]

/-- Minimum-holding-count threshold of each tier, per the table in §3 of the
specification (associate 0, soldier 5, caporegime 10, consigliere 15,
underboss 20, godfather 25, commission 100).  These are exactly the cutoffs
tested by `getHolderTier`. -/
def tierThreshold (tier : String) : Int :=
  if tier = "soldier" then 5
  else if tier = "caporegime" then 10
  else if tier = "consigliere" then 15
  else if tier = "underboss" then 20
  else if tier = "godfather" then 25
  else if tier = "commission" then 100
  else 0

/-! ## Narrative classification (`getTransactionStory`, `getTransactionStatus`) -/

/-- `getTransactionStory` from `bot.js` (both drafts): derives the narrative
label from the two tier ranks.  The trailing count parameters appear in the
JS signature but are never read. -/
def getTransactionStory (buyerTier sellerTier : String)
    (buyerCount sellerCount : Nat) : String :=
  let buyerRank := getTierRank buyerTier
  let sellerRank := getTierRank sellerTier
  if sellerRank > buyerRank + 1 then "empire_falls"
  else if buyerRank > sellerRank + 1 then "consolidation"
  else "business_as_usual"

/-- The `statusTemplates` table of draft P0: the short status string attached
to each narrative label. -/
structure StatusTemplates where
  empire_falls : String
  consolidation : String
  business_as_usual : String

/-- `statusTemplates` from `src/unnamed/part_000`. -/
def statusTemplates : StatusTemplates :=
  { empire_falls := "POWER VACUUM"
    consolidation := "EMPIRE EXPANSION"
    business_as_usual := "FAMILY BUSINESS" }

/-- `getTransactionStatus` from `src/unnamed/part_000`: same rank comparison
as `getTransactionStory`, returning the template text directly. -/
def getTransactionStatus (buyerTier sellerTier : String) : String :=
  let buyerRank := getTierRank buyerTier
  let sellerRank := getTierRank sellerTier
  if sellerRank > buyerRank + 1 then statusTemplates.empire_falls
  else if buyerRank > sellerRank + 1 then statusTemplates.consolidation
  else statusTemplates.business_as_usual

end AlCabone

namespace AlCabone

/-! ## Retry executor (`apiCallWithRetry`) -/

/-- Observable outcome of one `apiCallWithRetry` invocation: the value the
JS function settles with (`none` models the `undefined` a fallen-through
loop returns; `some (.ok a)` a returned result; `some (.error e)` a thrown
error), the number of times the wrapped action was invoked, and the backoff
waits (in ms) performed between attempts, in order. -/
structure RetryTrace (E A : Type) where
  outcome : Option (Except E A)
  calls : Nat
  waits : List Nat

/-- Body of the `for (let attempt = 1; attempt <= maxRetries; attempt++)`
loop of `apiCallWithRetry`.  `action n` is what the n-th invocation of
`apiCall` does; `attempt` is the JS loop counter and `remaining` the number
of further iterations the guard still allows, i.e. `maxRetries - attempt`,
which makes the recursion structural.  `remaining = 0` is exactly
`attempt === maxRetries`, the case that rethrows; otherwise the loop waits
`delay * 2^(attempt-1)` and retries. -/
def retryLoop {E A : Type} (action : Int -> Except E A) (delay : Nat) :
    Nat -> Int -> RetryTrace E A
  | 0, attempt =>
    match action attempt with
    | .ok a => RetryTrace.mk (some (.ok a)) 1 []
    | .error e => RetryTrace.mk (some (.error e)) 1 []
  | r + 1, attempt =>
    match action attempt with
    | .ok a => RetryTrace.mk (some (.ok a)) 1 []
    | .error _ =>
      let rest := retryLoop action delay r (attempt + 1)
      RetryTrace.mk rest.outcome (rest.calls + 1)
        (delay * 2 ^ (attempt - 1).toNat :: rest.waits)

/-- `apiCallWithRetry` from `bot.js` (identical in every draft): if
`maxRetries < 1` the loop guard `attempt <= maxRetries` is false at entry
and the function returns `undefined` having invoked nothing; otherwise the
loop runs starting at attempt 1 with `maxRetries - 1` further iterations
allowed. -/
def apiCallWithRetry {E A : Type} (action : Int -> Except E A)
    (maxRetries : Int) (delay : Nat) : RetryTrace E A :=
  if maxRetries < 1 then RetryTrace.mk none 0 []
  else retryLoop action delay (maxRetries - 1).toNat 1

/-- On an action that fails every time, `retryLoop` starting at `attempt`
with `r` further iterations allowed makes `r + 1` calls, ends with the error
of the final attempt `attempt + r`, and waits
`delay * 2^(attempt-1), ..., delay * 2^(attempt+r-2)` between attempts. -/
theorem retryLoop_allFail {E A : Type} (action : Int -> Except E A)
    (err : Int -> E) (hact : forall n, action n = .error (err n)) (delay : Nat) :
    forall (r : Nat) (attempt : Int), 1 <= attempt ->
      retryLoop action delay r attempt =
        RetryTrace.mk (some (.error (err (attempt + r)))) (r + 1)
          ((List.range r).map fun i => delay * 2 ^ ((attempt - 1).toNat + i)) := by
  intro r
  induction r with
  | zero =>
    intro attempt _
    simp [retryLoop, hact]
  | succ r ih =>
    intro attempt h1
    simp only [retryLoop, hact attempt]
    rw [ih (attempt + 1) (by omega)]
    simp only [RetryTrace.mk.injEq]
    have h2 : attempt + 1 + (r : Int) = attempt + ((r + 1 : Nat) : Int) := by
      push_cast
      ring
    refine ⟨by rw [h2], trivial, ?_⟩
    rw [List.range_succ_eq_map, List.map_cons, List.map_map]
    refine congrArg₂ List.cons (by norm_num) (List.map_congr_left ?_)
    intro i _
    simp only [Function.comp_apply]
    congr 2
    omega

/-- **C3.** For every action that fails on every invocation and every
`maxRetries >= 1`, `apiCallWithRetry` invokes the action exactly `maxRetries`
times, waits `delay * 2^(attempt-1)` before re-attempt `attempt + 1` for
each `attempt = 1, ..., maxRetries - 1`, and settles by rethrowing the error
of the final (`maxRetries`-th) attempt. -/
theorem apiCallWithRetry_allFail_attempts_and_backoff {E A : Type}
    (action : Int -> Except E A) (err : Int -> E)
    (hact : forall n, action n = .error (err n))
    (maxRetries : Int) (hmax : 1 <= maxRetries) (delay : Nat) :
    apiCallWithRetry action maxRetries delay =
      RetryTrace.mk (some (.error (err maxRetries))) maxRetries.toNat
        ((List.range (maxRetries - 1).toNat).map fun i => delay * 2 ^ i) := by
  rw [apiCallWithRetry, if_neg (by omega),
      retryLoop_allFail action err hact delay (maxRetries - 1).toNat 1 le_rfl]
  simp only [RetryTrace.mk.injEq]
  have h2 : (1 : Int) + ((maxRetries - 1).toNat : Int) = maxRetries := by
    omega
  exact ⟨by rw [h2], by omega, List.map_congr_left fun i _ => by norm_num⟩

/-- Witness for C3: an action that always throws error `7`, three attempts,
base delay 2 ms -- exactly 3 calls, waits `[2, 4]`, final error rethrown. -/
theorem apiCallWithRetry_allFail_witness :
    apiCallWithRetry (fun _ => (Except.error 7 : Except Nat Nat)) 3 2 =
      RetryTrace.mk (some (.error 7)) 3 [2, 4] := by
  have h := apiCallWithRetry_allFail_attempts_and_backoff
    (fun _ => (Except.error 7 : Except Nat Nat)) (fun _ => 7)
    (fun _ => rfl) 3 (by norm_num) 2
  rw [h]
  exact congrArg₂ (RetryTrace.mk (some (Except.error 7))) (by decide)
    (by decide)

/-- **C9.** For every `maxRetries <= 0`, the loop guard is false on entry:
`apiCallWithRetry` settles with `undefined` (`none`), performs zero calls to
the action, zero waits, and does not throw. -/
theorem apiCallWithRetry_nonpositive_retries_degenerate {E A : Type}
    (action : Int -> Except E A) (maxRetries : Int) (hmax : maxRetries <= 0)
    (delay : Nat) :
    apiCallWithRetry action maxRetries delay = RetryTrace.mk none 0 [] := by
  rw [apiCallWithRetry, if_pos (by omega)]

/-- Witness for C9: with `maxRetries = 0` an always-succeeding action is
never invoked and `undefined` is returned. -/
theorem apiCallWithRetry_nonpositive_retries_witness :
    apiCallWithRetry (fun _ => (Except.ok 5 : Except Nat Nat)) 0 2 =
      RetryTrace.mk none 0 [] :=
  apiCallWithRetry_nonpositive_retries_degenerate
    (fun _ => (Except.ok 5 : Except Nat Nat)) 0 (by norm_num) 2

/-! ## Sale events and validation (`isValidSaleEvent`) -/

/-- The `nft` payload of a marketplace sale event, as read by the bot
(`sale.nft.name`, `sale.nft.identifier`, `sale.nft.image_url`,
`sale.nft.opensea_url`). -/
structure Nft where
  name : Option String
  identifier : String
  image_url : Option String
  opensea_url : Option String
  deriving DecidableEq

/-- The `payment` payload of a sale event.  The marketplace serialises
`payment.quantity` as a decimal string: `formatPrice` in `bot.js` both
divides it numerically and compares it against the string `'0'`, and
`isValidSaleEvent` tests only its JS truthiness (absent or the empty string
are falsy; every other string, including `"0"`, is truthy). -/
structure Payment where
  quantity : Option String
  decimals : Option Nat
  symbol : Option String
  deriving DecidableEq

/-- A marketplace event as consumed by the bot: `event_type`, optional
`nft` payload, optional `buyer`/`seller` address strings, optional bundle
`quantity` (modelled post-`parseInt`, as the parsed number when the raw
field is truthy and parses), optional `payment`, and the Unix
`event_timestamp` used by draft P0 for client-side filtering. -/
structure SaleEvent where
  event_type : String
  nft : Option Nft
  buyer : Option String
  seller : Option String
  quantity : Option Nat
  payment : Option Payment
  event_timestamp : Nat
  deriving DecidableEq

/-- JS truthiness of an optional string field: `undefined`/missing and the
empty string are falsy, every other string is truthy. -/
def jsTruthy (s : Option String) : Bool :=
  match s with
  | none => false
  | some str => str != ""

/-- The bundle-sale rejection test of `isValidSaleEvent`:
`sale.quantity && parseInt(sale.quantity) > 1`. -/
def isBundleSale (quantity : Option Nat) : Bool :=
  match quantity with
  | some q => decide (q > 1)
  | none => false

/-- The last rejection test of `isValidSaleEvent`:
`!sale.payment || !sale.payment.quantity`. -/
def missingPayment (payment : Option Payment) : Bool :=
  match payment with
  | none => true
  | some p => !(jsTruthy p.quantity)

/-- `isValidSaleEvent` from `bot.js` (identical in every draft): the
four-step rejection chain (`event_type !== 'sale'`; missing `nft` or falsy
`buyer`; truthy `quantity` parsing to more than 1; missing `payment` or
falsy `payment.quantity`). -/
def isValidSaleEvent (sale : SaleEvent) : Bool :=
  if sale.event_type != "sale" then false
  else if sale.nft.isNone || !(jsTruthy sale.buyer) then false
  else if isBundleSale sale.quantity then false
  else if missingPayment sale.payment then false
  else true

/-- A concrete sale event whose payment amount is the zero string `"0"`:
kind `sale`, nft and buyer present, single quantity, payment present. -/
def zeroPaymentSale : SaleEvent :=
  { event_type := "sale"
    nft := some { name := some "Al Cabone #1", identifier := "1",
                  image_url := none, opensea_url := none }
    buyer := some "0xbuyer"
    seller := some "0xseller"
    quantity := some 1
    payment := some { quantity := some "0", decimals := some 18,
                      symbol := some "ETH" }
    event_timestamp := 1700000000 }

/-- **C7 counterexample.** The claim says a zero payment amount is
rejected, but `isValidSaleEvent` only tests JS truthiness of the quantity
string, and the zero amount `"0"` is a truthy string (exactly the case
`formatPrice` later renders as `Price undisclosed`): the concrete event
`zeroPaymentSale` carries payment amount zero yet is accepted. -/
theorem isValidSaleEvent_accepts_zero_payment_string :
    (zeroPaymentSale.payment.map Payment.quantity = some (some "0")) ∧
    isValidSaleEvent zeroPaymentSale = true := by
  decide

/-- **C7 (amended).** `isValidSaleEvent` returns `true` iff the event kind
equals `"sale"`, an nft payload is present, the buyer is truthy, the parsed
bundle quantity (when present) does not exceed 1, and a payment with a
truthy (non-empty) quantity string is present — presence, not non-zeroness:
the string `"0"` passes. -/
theorem isValidSaleEvent_iff (sale : SaleEvent) :
    isValidSaleEvent sale = true ↔
      sale.event_type = "sale" ∧
      sale.nft.isSome = true ∧
      jsTruthy sale.buyer = true ∧
      (∀ q, sale.quantity = some q → q ≤ 1) ∧
      (∃ p, sale.payment = some p ∧ jsTruthy p.quantity = true) := by
  rcases sale with ⟨et, nft, buyer, seller, qty, pay, ts⟩
  simp only [isValidSaleEvent, isBundleSale, missingPayment]
  rcases qty with _ | q <;> rcases pay with _ | p <;>
    simp [bne_iff_ne, and_assoc, Option.isNone_iff_eq_none,
          Option.isSome_iff_ne_none]

/-! ## Event fetching (`fetchRecentSales`) -/

/-- The client-side result transformation of draft V1's `fetchRecentSales`
(`bot.js`, first copy): the fetched window is filtered by
`isValidSaleEvent` only — the checkpoint is never read and no timestamp
filtering happens (the request carries only `event_type` and `limit`). -/
def fetchRecentSalesV1 (events : List SaleEvent) : List SaleEvent :=
  events.filter isValidSaleEvent

/-- The client-side result transformation of draft P0's `fetchRecentSales`
(`src/unnamed/part_000`): the fetched window is first filtered manually by
`event.event_timestamp > lastCheckTimestamp` (the server-side
`occurred_after` parameter being deprecated), then by `isValidSaleEvent`. -/
def fetchRecentSalesP0 (lastCheckTimestamp : Nat)
    (events : List SaleEvent) : List SaleEvent :=
  (events.filter fun event =>
    decide (event.event_timestamp > lastCheckTimestamp)).filter
      isValidSaleEvent

/-- A concrete valid sale event that occurred at Unix time 50. -/
def staleSale : SaleEvent :=
  { zeroPaymentSale with
    payment := some { quantity := some "1000000000000000000",
                      decimals := some 18, symbol := some "ETH" }
    event_timestamp := 50 }

/-- **C4 counterexample.** Draft V1's `fetchRecentSales` performs no
timestamp filtering at all: with the checkpoint at `lastCheck = 100`, the
valid sale `staleSale` from time 50 (not strictly after the checkpoint) is
still returned, refuting the claim for that cited draft. -/
theorem fetchRecentSalesV1_returns_stale_event :
    fetchRecentSalesV1 [staleSale] = [staleSale] ∧
    staleSale.event_timestamp ≤ 100 := by
  decide

/-- **C4 (amended).** In draft P0's `fetchRecentSales` the filtering is
client-side and strict: an event is returned iff it is in the fetched
window, its occurrence timestamp is strictly greater than the checkpoint's
`lastCheckTimestamp`, and it passes validation.  (Draft V1 does no
timestamp filtering and draft V2 delegates it to the server-side
`occurred_after` parameter.) -/
theorem fetchRecentSalesP0_mem_iff (lastCheckTimestamp : Nat)
    (events : List SaleEvent) (e : SaleEvent) :
    e ∈ fetchRecentSalesP0 lastCheckTimestamp events ↔
      e ∈ events ∧ lastCheckTimestamp < e.event_timestamp ∧
        isValidSaleEvent e = true := by
  simp only [fetchRecentSalesP0, List.mem_filter, decide_eq_true_eq]
  tauto

/-! ## Checkpoint store (`last-check.json`) -/

/-- The parsed content of `last-check.json`: `lastCheck` and
`lastFloorAlert` are ISO-8601 strings, either possibly absent. -/
structure LastCheckData where
  lastCheck : Option String
  lastFloorAlert : Option String
  deriving DecidableEq

/-- `updateLastCheckTime` from `bot.js` (both drafts): builds a fresh
object `{ lastCheck: new Date().toISOString() }` and writes it over the
whole file, regardless of what was stored before (the previous state is
never read). -/
def updateLastCheckTimeBot (previous : Option LastCheckData)
    (now : String) : LastCheckData :=
  { lastCheck := some now, lastFloorAlert := none }

/-- `updateLastCheckTime` from `src/unnamed/part_000`: reads the existing
file (falling back to an empty object `{}` when absent or unparsable),
sets `data.lastCheck`, and writes the merged object back. -/
def updateLastCheckTimeP0 (previous : Option LastCheckData)
    (now : String) : LastCheckData :=
  match previous with
  | some data => { data with lastCheck := some now }
  | none => { lastCheck := some now, lastFloorAlert := none }

/-- `updateLastFloorAlert` (identical in every draft): reads the existing
file (falling back to `{}`), sets `data.lastFloorAlert`, and writes the
merged object back. -/
def updateLastFloorAlert (previous : Option LastCheckData)
    (now : String) : LastCheckData :=
  match previous with
  | some data => { data with lastFloorAlert := some now }
  | none => { lastCheck := none, lastFloorAlert := some now }

/-- **C5 counterexample.** The `bot.js` drafts of `updateLastCheckTime`
do not merge: starting from a stored state with `lastFloorAlert = "B"`, a
lastCheck-only write erases the stored `lastFloorAlert` instead of
preserving it. -/
theorem updateLastCheckTimeBot_erases_floor_alert :
    (updateLastCheckTimeBot
        (some { lastCheck := some "A", lastFloorAlert := some "B" })
        "T").lastFloorAlert = none ∧ (none : Option String) ≠ some "B" := by
  decide

/-- **C5 (amended).** `updateLastFloorAlert` preserves the stored
`lastCheck` in every draft, and the `part_000` draft of
`updateLastCheckTime` preserves the stored `lastFloorAlert`; but the
`bot.js` drafts of `updateLastCheckTime` write a fresh `{ lastCheck }`
object, unconditionally erasing the stored `lastFloorAlert`. -/
theorem checkpoint_writes_merge (data : LastCheckData) (now : String) :
    (updateLastFloorAlert (some data) now).lastCheck = data.lastCheck ∧
    (updateLastCheckTimeP0 (some data) now).lastFloorAlert
      = data.lastFloorAlert ∧
    (updateLastCheckTimeBot (some data) now).lastFloorAlert = none := by
  exact ⟨rfl, rfl, rfl⟩

/-! ## Per-run orchestration (`runBot`) -/

/-- `sales.slice(0, 3)` in `runBot` (identical in every draft): the per-run
ceiling on how many fetched sales are processed. -/
def salesToProcess (sales : List SaleEvent) : List SaleEvent :=
  sales.take 3

/-- The externally observable decisions of one `runBot` invocation:
whether the floor-price-alert publish call is reached, and which sale
events enter the per-event publish loop. -/
structure RunDecision where
  postsFloorAlert : Bool
  processed : List SaleEvent

/-- The branch structure of draft V1's `runBot` (`bot.js`, first copy):
early return when there are no sales and no alert is due; then
`if (shouldAlert)` — the floor alert is attempted whenever the time gate is
due, with or without sales, and reaches its publish call when
`getFloorPriceNFT` yielded a listing (`floorAvailable`); then early return
when there are no sales; otherwise the first three sales are processed. -/
def runBotV1 (sales : List SaleEvent) (shouldAlert floorAvailable : Bool) :
    RunDecision :=
  if sales.length = 0 ∧ shouldAlert = false then ⟨false, []⟩
  else
    let posted := shouldAlert && floorAvailable
    if sales.length = 0 then ⟨posted, []⟩
    else ⟨posted, salesToProcess sales⟩

/-- The branch structure of `runBot` in draft P0 (`src/unnamed/part_000`)
and draft V2 (`bot.js`, second copy): identical to draft V1 except that the
floor-alert branch is guarded by `shouldAlert && sales.length === 0`. -/
def runBotP0 (sales : List SaleEvent) (shouldAlert floorAvailable : Bool) :
    RunDecision :=
  if sales.length = 0 ∧ shouldAlert = false then ⟨false, []⟩
  else
    let posted := shouldAlert && (sales.length == 0) && floorAvailable
    if sales.length = 0 then ⟨posted, []⟩
    else ⟨posted, salesToProcess sales⟩

/-- **C6 counterexample.** In draft V1's `runBot`, a run that fetched one
qualifying sale still reaches the floor-alert publish call whenever the
alert gate is due: the claim fails for that cited draft. -/
theorem runBotV1_posts_alert_despite_sales :
    (runBotV1 [staleSale] true true).postsFloorAlert = true ∧
    [staleSale].length ≠ 0 := by
  constructor
  · rfl
  · decide

/-- **C6 (amended).** In draft P0 / draft V2 of `runBot`, the floor alert
publish call is reached exactly when the alert gate is due, the fetched
batch of qualifying sales is empty, and a floor listing is available — in
particular never in a run with one or more qualifying sales.  (Draft V1
posts the alert whenever the gate is due, even alongside sale posts.) -/
theorem runBotP0_alert_only_on_empty_batch (sales : List SaleEvent)
    (shouldAlert floorAvailable : Bool) :
    (runBotP0 sales shouldAlert floorAvailable).postsFloorAlert
      = (shouldAlert && sales.isEmpty && floorAvailable) := by
  rcases sales with _ | ⟨e, rest⟩ <;>
    rcases shouldAlert with _ | _ <;>
      simp [runBotP0, List.isEmpty]

/-- **C8.** The batch loop of every `runBot` draft iterates over
`sales.slice(0, 3)`: the processed events are a prefix of the fetched list,
at most 3 of them, exactly the first `min 3 n` of `n` fetched events — so
10 valid fetched events mean the first 3 are attempted and the remaining
7 are not. -/
theorem runBot_batch_cap (sales : List SaleEvent) :
    salesToProcess sales <+: sales ∧
    (salesToProcess sales).length = min 3 sales.length ∧
    (sales.length = 10 →
      (salesToProcess sales).length = 3 ∧
      sales.length - (salesToProcess sales).length = 7 ∧
      salesToProcess sales = [sales[0]?, sales[1]?, sales[2]?].reduceOption) := by
  refine ⟨List.take_prefix 3 sales, List.length_take 3 sales, fun h10 => ?_⟩
  have h3 : (salesToProcess sales).length = 3 := by
    simp [salesToProcess, List.length_take, h10]
  refine ⟨h3, by omega, ?_⟩
  rcases sales with _ | ⟨a, _ | ⟨b, _ | ⟨c, rest⟩⟩⟩ <;> simp_all [salesToProcess]

/-! ## Holder-count pagination (`getHolderNFTCount`, draft V1) -/

/-- One iteration of the `while (hasMore && totalCount < 1000)` pagination
loop of draft V1's `getHolderNFTCount`.  `pages k` is the k-th response:
the length of its `assets` array and the truthiness of its `next` cursor.
The body is entered with the guard already checked (initially
`hasMore = true`, `totalCount = 0 < 1000`), adds the page length, and
continues exactly when the cursor is truthy, the page held exactly 200
items, and the new count is still below 1000.  Returns the final
`totalCount` together with the number of page requests performed; the
count grows by exactly 200 on every continuing iteration, which bounds the
recursion by the code's own `totalCount < 1000` safety limit. -/
def holderLoop (pages : Nat -> Nat × Bool) (k totalCount : Nat) :
    Nat × Nat :=
  let len := (pages k).1
  let hasNext := (pages k).2
  let total := totalCount + len
  if h : hasNext = true ∧ len = 200 ∧ total < 1000 then
    let rest := holderLoop pages (k + 1) total
    (rest.1, rest.2 + 1)
  else (total, 1)
termination_by 1000 - totalCount
decreasing_by simp_wf; omega

/-- Draft V1's `getHolderNFTCount` (`bot.js`, first copy), as a function of
the sequence of marketplace pages: runs the pagination loop from zero and
floors the result at 1 (`Math.max(totalCount, 1)`, minimum 1 for new
buyers).  Second component: number of page requests made. -/
def getHolderNFTCountV1 (pages : Nat -> Nat × Bool) : Nat × Nat :=
  ((holderLoop pages 0 0).1.max 1, (holderLoop pages 0 0).2)

/-- Loop invariant of the pagination: entered with a count that is a
multiple of 200 and below 1000, the loop performs at most
`(1000 - totalCount) / 200` page requests (so it terminates after at most
5), and â whenever every page respects the requested `limit: 200` â the
final count never exceeds 1000. -/
theorem holderLoop_invariant (pages : Nat -> Nat × Bool) :
    ∀ (n totalCount k : Nat), 1000 - totalCount ≤ n ->
      200 ∣ totalCount -> totalCount < 1000 ->
      (holderLoop pages k totalCount).2 * 200 ≤ 1000 - totalCount ∧
      ((∀ j, (pages j).1 ≤ 200) ->
        (holderLoop pages k totalCount).1 ≤ 1000) := by
  intro n
  induction n with
  | zero =>
    intro totalCount k hn _ hlt
    omega
  | succ n ih =>
    intro totalCount k hn hdvd hlt
    rw [holderLoop]
    split_ifs with h
    · obtain ⟨hnext, hlen, htot⟩ := h
      have hrec := ih (totalCount + (pages k).1) (k + 1) (by omega)
        (by rcases hdvd with ⟨m, hm⟩; exact ⟨m + 1, by omega⟩)
        (by omega)
      dsimp only
      exact ⟨by omega, fun h200 => hrec.2 h200⟩
    · dsimp only
      refine ⟨by omega, fun h200 => ?_⟩
      have := h200 k
      omega

/-- A marketplace response that ignores the requested `limit: 200` and
returns 1500 assets in a single page, with no further cursor. -/
def oversizedPage : Nat -> Nat × Bool := fun _ => (1500, false)

/-- **C10 counterexample.** The returned value is not always at most 1000:
if a page exceeds the requested 200-item limit, the loop adds its full
length and stops, so a single 1500-asset page makes `getHolderNFTCount`
return 1500. -/
theorem getHolderNFTCountV1_exceeds_1000_on_oversized_page :
    (getHolderNFTCountV1 oversizedPage).1 = 1500 ∧ 1500 > 1000 := by
  constructor
  · rw [getHolderNFTCountV1, holderLoop]
    norm_num [oversizedPage]
  · norm_num

/-- **C10 (amended).** For every sequence of pages the pagination loop of
draft V1's `getHolderNFTCount` terminates after at most 5 page requests
(each continuing iteration requires the page to hold exactly 200 items and
the count to stay below 1000), and the returned value is at least 1; it is
moreover at most 1000 whenever every page holds at most the requested 200
items. -/
theorem getHolderNFTCountV1_bounds (pages : Nat -> Nat × Bool) :
    1 ≤ (getHolderNFTCountV1 pages).1 ∧
    (getHolderNFTCountV1 pages).2 ≤ 5 ∧
    ((∀ j, (pages j).1 ≤ 200) -> (getHolderNFTCountV1 pages).1 ≤ 1000) := by
  have h := holderLoop_invariant pages 1000 0 0 (by omega) ⟨0, rfl⟩
    (by omega)
  simp only [getHolderNFTCountV1]
  refine ⟨Nat.le_max_right _ 1, by omega, fun h200 => ?_⟩
  exact Nat.max_le.mpr ⟨h.2 h200, by norm_num⟩

/-- Witness for C10 (amended): a single short page of 7 assets yields a
count of 7, within the bounds. -/
theorem getHolderNFTCountV1_bounds_witness :
    1 ≤ (getHolderNFTCountV1 (fun _ => (7, false))).1 ∧
    (getHolderNFTCountV1 (fun _ => (7, false))).1 ≤ 1000 :=
  ⟨(getHolderNFTCountV1_bounds (fun _ => (7, false))).1,
   (getHolderNFTCountV1_bounds (fun _ => (7, false))).2.2
     (fun _ => by norm_num)⟩

/-- **C1.** With `Δ = rank(seller) − rank(buyer)`, the narrative classifier
returns `empire_falls` iff `Δ > 1`, `consolidation` iff `Δ < −1`, and
`business_as_usual` iff `|Δ| ≤ 1` — for arbitrary tier strings (unknown
strings rank 1), in both `getTransactionStory` and `getTransactionStatus`
(the latter through its status templates); and on the stated boundary pairs,
buyer associate / seller caporegime yields `empire_falls` while buyer
caporegime / seller soldier yields `business_as_usual`. -/
theorem narrative_classifier_matches_rank_difference
    (buyerTier sellerTier : String) (buyerCount sellerCount : Nat) :
    (getTransactionStory buyerTier sellerTier buyerCount sellerCount
        = "empire_falls"
      ↔ (getTierRank sellerTier : Int) - getTierRank buyerTier > 1) ∧
    (getTransactionStory buyerTier sellerTier buyerCount sellerCount
        = "consolidation"
      ↔ (getTierRank sellerTier : Int) - getTierRank buyerTier < -1) ∧
    (getTransactionStory buyerTier sellerTier buyerCount sellerCount
        = "business_as_usual"
      ↔ |(getTierRank sellerTier : Int) - getTierRank buyerTier| ≤ 1) ∧
    (getTransactionStatus buyerTier sellerTier
        = statusTemplates.empire_falls
      ↔ (getTierRank sellerTier : Int) - getTierRank buyerTier > 1) ∧
    getTransactionStory "associate" "caporegime" buyerCount sellerCount
        = "empire_falls" ∧
    getTransactionStory "caporegime" "soldier" buyerCount sellerCount
        = "business_as_usual" := by
  refine ⟨?_, ?_, ?_, ?_, by rfl, by rfl⟩
  · unfold getTransactionStory
    dsimp only
    split_ifs <;> simp <;> omega
  · unfold getTransactionStory
    dsimp only
    split_ifs <;> simp <;> omega
  · unfold getTransactionStory
    dsimp only
    split_ifs <;> simp [abs_le, lt_abs] <;> omega
  · unfold getTransactionStatus statusTemplates
    dsimp only
    split_ifs <;> simp <;> omega

/-- **C2.** `getHolderTier` is total on `Int`, always lands in the tier
table, meets its own threshold for non-negative counts, dominates every tier
whose threshold the count meets (i.e. it is the highest qualifying tier),
maps every count ≤ 0 to `associate`, and every count ≥ 100 to
`commission`. -/
theorem getHolderTier_is_highest_qualifying_tier (c : Int) :
    getHolderTier c ∈ tierList ∧
    (0 ≤ c → tierThreshold (getHolderTier c) ≤ c) ∧
    (∀ t ∈ tierList, tierThreshold t ≤ c →
      getTierRank t ≤ getTierRank (getHolderTier c)) ∧
    (c ≤ 0 → getHolderTier c = "associate") ∧
    (100 ≤ c → getHolderTier c = "commission") := by
  unfold getHolderTier
  split_ifs with h1 h2 h3 h4 h5 h6 <;>
    refine ⟨by decide, by intro h0; simp [tierThreshold] <;> omega,
            fun t ht hthr => ?_, by intro hle; simp_all <;> omega,
            by intro hge; simp_all <;> omega⟩ <;>
    · fin_cases ht <;> simp_all [tierThreshold, getTierRank] <;> omega

/-- Witness for C2: evaluating the classification at concrete counts
100, −5 and 12 discharges each conditional clause of the theorem. -/
theorem getHolderTier_is_highest_qualifying_tier_witness :
    getHolderTier 100 = "commission" ∧
    getHolderTier (-5) = "associate" ∧
    tierThreshold (getHolderTier 12) ≤ 12 ∧
    getTierRank "soldier" ≤ getTierRank (getHolderTier 12) :=
  ⟨(getHolderTier_is_highest_qualifying_tier 100).2.2.2.2 (by norm_num),
   (getHolderTier_is_highest_qualifying_tier (-5)).2.2.2.1 (by norm_num),
   (getHolderTier_is_highest_qualifying_tier 12).2.1 (by norm_num),
   (getHolderTier_is_highest_qualifying_tier 12).2.2.1 "soldier"
     (by decide) (by decide)⟩

/-- Witness for C1: buyer associate (rank 1) and seller godfather (rank 6)
give rank difference 5 > 1 and the `empire_falls` narrative. -/
theorem narrative_classifier_matches_rank_difference_witness :
    getTransactionStory "associate" "godfather" 1 30 = "empire_falls" :=
  (narrative_classifier_matches_rank_difference "associate" "godfather"
    1 30).1.mpr (by decide)

/-- Witness for C4 (amended): with the checkpoint at time 40, the valid
sale from time 50 is returned by draft P0's filter. -/
theorem fetchRecentSalesP0_mem_iff_witness :
    staleSale ∈ fetchRecentSalesP0 40 [staleSale] :=
  (fetchRecentSalesP0_mem_iff 40 [staleSale] staleSale).mpr
    ⟨by decide, by decide, by decide⟩

/-- Witness for C7 (amended): the concrete valid sale `staleSale` is
accepted, and the characterisation yields its event kind. -/
theorem isValidSaleEvent_iff_witness :
    staleSale.event_type = "sale" :=
  ((isValidSaleEvent_iff staleSale).mp (by decide)).1

/-- Witness for C8: a fetched batch of 10 valid events has exactly its
first 3 processed. -/
theorem runBot_batch_cap_witness :
    (salesToProcess (List.replicate 10 staleSale)).length = 3 :=
  ((runBot_batch_cap (List.replicate 10 staleSale)).2.2 (by simp)).1

end AlCabone
